import Mathlib

/-
Verification of the pre-compaction design-decisions hook
(`src/hooks/pre-compact-decisions.py`).

The script is a single linear pipeline:
  stdin JSON payload → transcript (JSONL) → conversation reconstruction →
  external summarizer (`claude -p`) → persistence of header+summary.

Shallow embedding conventions:
* JSON values are modelled by `JVal` (numbers as `Int`; the claims never
  depend on float-valued JSON numbers).
* Python truthiness, `or`, `dict.get`, `str.strip`, `str()` and `==` against
  a string literal are modelled by `JVal.truthy`, `pyOr`, `JVal.get`/`getD`,
  `pyStrip`, `pyStr` and `JVal.eqStr`.
* Fallible Python code is modelled with `Except Unit`: `.error ()` stands for
  an uncaught exception (`AttributeError` from `.get` on a non-dict,
  `TypeError` from `"\n".join` on a non-string part).  An uncaught exception
  in `main` makes the interpreter exit with a non-zero status; this is the
  `MainResult.crash` outcome below.
* External state (stdin, the transcript file's contents, the subprocess
  outcome, filesystem write success, `os.getcwd()`, `Path.home()`, and the
  `datetime.now()` timestamp string) is collected in a `World` record and
  passed in explicitly; `main : World → MainResult` returns the exit status
  together with the list of file writes performed.
* `hashlib.md5` is the Python standard library's MD5; it is embedded here as
  a full executable MD5 over `Nat` (RFC 1321), validated below against the
  standard test vectors.
-/

/-- A JSON value, as produced by `json.loads`.  Numbers are modelled as
integers; none of the verified properties involve non-integer numbers. -/
inductive JVal where
  | null
  | bool (b : Bool)
  | num (n : Int)
  | str (s : String)
  | arr (xs : List JVal)
  | obj (kvs : List (String × JVal))

/-- Python truthiness (`bool(x)`) of a JSON value: `None`, `False`, `0`,
`""`, `[]` and `\x7b\x7d` are falsy, everything else truthy. -/
def JVal.truthy : JVal → Bool
  | .null => false
  | .bool b => b
  | .num n => n != 0
  | .str s => s != ""
  | .arr xs => !xs.isEmpty
  | .obj kvs => !kvs.isEmpty

/-- Python `a or b` (on JSON values): `a` when truthy, else `b`. -/
def pyOr (a b : JVal) : JVal := if a.truthy then a else b

/-- Key lookup in a parsed JSON object.  `json.loads` keeps the last value
for a duplicated key, hence the lookup from the reversed list. -/
def lookupKey (kvs : List (String × JVal)) (k : String) : Option JVal :=
  (kvs.reverse.find? (fun p => p.1 == k)).map (fun p => p.2)

/-- Python `d.get(k)` (default `None`).  Only ever applied to values already
matched as objects; the non-object branch is unreachable in guarded uses. -/
def JVal.get (v : JVal) (k : String) : JVal :=
  match v with
  | .obj kvs => (lookupKey kvs k).getD .null
  | _ => .null

/-- Python `d.get(k, default)`.  A key stored with value `None` yields
`None`, not the default, exactly as in Python. -/
def JVal.getD (v : JVal) (k : String) (d : JVal) : JVal :=
  match v with
  | .obj kvs => (lookupKey kvs k).getD d
  | _ => d

/-- Python `v == "s"` where the right-hand side is a string literal: true
exactly when `v` is that string (no cross-type equalities with `str`). -/
def JVal.eqStr (v : JVal) (s : String) : Bool :=
  match v with
  | .str t => t == s
  | _ => false

/-- The code points stripped by Python's `str.strip()` (the `str.isspace`
set: ASCII whitespace, the information separators, and the Unicode space
code points). -/
def isPySpace (c : Char) : Bool :=
  ([9, 10, 11, 12, 13, 28, 29, 30, 31, 32, 133, 160, 5760,
    8192, 8193, 8194, 8195, 8196, 8197, 8198, 8199, 8200, 8201, 8202,
    8232, 8233, 8239, 8287, 12288] : List Nat).contains c.toNat

/-- Python `s.strip()`: remove leading and trailing whitespace. -/
def pyStrip (s : String) : String :=
  String.mk (((s.data.dropWhile isPySpace).reverse.dropWhile isPySpace).reverse)

mutual

/-- Python `repr()` of a JSON value (used by `str()` on containers).
Escaping of quotes and control characters inside string reprs is elided;
no verified property depends on it. -/
def pyRepr : JVal → String
  | .null => "None"
  | .bool true => "True"
  | .bool false => "False"
  | .num n => toString n
  | .str s => "\x27" ++ s ++ "\x27"
  | .arr xs => "[" ++ pyReprList xs ++ "]"
  | .obj kvs => "\x7b" ++ pyReprPairs kvs ++ "\x7d"

/-- Comma-separated reprs of the elements of a list. -/
def pyReprList : List JVal → String
  | [] => ""
  | [x] => pyRepr x
  | x :: y :: rest => pyRepr x ++ ", " ++ pyReprList (y :: rest)

/-- Comma-separated `key: value` reprs of the entries of an object. -/
def pyReprPairs : List (String × JVal) → String
  | [] => ""
  | [(k, v)] => "\x27" ++ k ++ "\x27: " ++ pyRepr v
  | (k, v) :: p :: rest => "\x27" ++ k ++ "\x27: " ++ pyRepr v ++ ", " ++ pyReprPairs (p :: rest)

end

/-- Python `str()` of a JSON value, as interpolated by an f-string. -/
def pyStr : JVal → String
  | .str s => s
  | v => pyRepr v

/- ---------------------------------------------------------------------
MD5 (RFC 1321) over `Nat`, embedding `hashlib.md5(...).hexdigest()`.
--------------------------------------------------------------------- -/

/-- `2 ^ 32`, the modulus for 32-bit arithmetic. -/
def mask32 : Nat := 4294967296

/-- Bitwise complement of a 32-bit value. -/
def bnot32 (x : Nat) : Nat := 4294967295 - x

/-- 32-bit left rotation.  For `x < 2 ^ 32` the shifted parts occupy
disjoint bit ranges, so addition coincides with bitwise or. -/
def rotl32 (x s : Nat) : Nat :=
  (Nat.shiftLeft x s + Nat.shiftRight x (32 - s)) % mask32

/-- The 64 MD5 sine-derived round constants. -/
def md5K : List Nat :=
  [0xd76aa478, 0xe8c7b756, 0x242070db, 0xc1bdceee, 0xf57c0faf, 0x4787c62a, 0xa8304613, 0xfd469501,
   0x698098d8, 0x8b44f7af, 0xffff5bb1, 0x895cd7be, 0x6b901122, 0xfd987193, 0xa679438e, 0x49b40821,
   0xf61e2562, 0xc040b340, 0x265e5a51, 0xe9b6c7aa, 0xd62f105d, 0x02441453, 0xd8a1e681, 0xe7d3fbc8,
   0x21e1cde6, 0xc33707d6, 0xf4d50d87, 0x455a14ed, 0xa9e3e905, 0xfcefa3f8, 0x676f02d9, 0x8d2a4c8a,
   0xfffa3942, 0x8771f681, 0x6d9d6122, 0xfde5380c, 0xa4beea44, 0x4bdecfa9, 0xf6bb4b60, 0xbebfbc70,
   0x289b7ec6, 0xeaa127fa, 0xd4ef3085, 0x04881d05, 0xd9d4d039, 0xe6db99e5, 0x1fa27cf8, 0xc4ac5665,
   0xf4292244, 0x432aff97, 0xab9423a7, 0xfc93a039, 0x655b59c3, 0x8f0ccc92, 0xffeff47d, 0x85845dd1,
   0x6fa87e4f, 0xfe2ce6e0, 0xa3014314, 0x4e0811a1, 0xf7537e82, 0xbd3af235, 0x2ad7d2bb, 0xeb86d391]

/-- The 64 MD5 per-round left-rotation amounts. -/
def md5S : List Nat :=
  [7, 12, 17, 22, 7, 12, 17, 22, 7, 12, 17, 22, 7, 12, 17, 22,
   5, 9, 14, 20, 5, 9, 14, 20, 5, 9, 14, 20, 5, 9, 14, 20,
   4, 11, 16, 23, 4, 11, 16, 23, 4, 11, 16, 23, 4, 11, 16, 23,
   6, 10, 15, 21, 6, 10, 15, 21, 6, 10, 15, 21, 6, 10, 15, 21]

/-- The four 32-bit MD5 chaining words. -/
structure MD5State where
  a : Nat
  b : Nat
  c : Nat
  d : Nat

/-- Decode a byte list into little-endian 32-bit words. -/
def leWords : List Nat → List Nat
  | b0 :: b1 :: b2 :: b3 :: rest =>
      (b0 + 256 * b1 + 65536 * b2 + 16777216 * b3) :: leWords rest
  | _ => []

/-- One MD5 round.  In rounds one and two the two `land` masks select
disjoint bits, so `+` coincides with bitwise or. -/
def md5Round (M : List Nat) (st : MD5State) (i : Nat) : MD5State :=
  let fg : Nat × Nat :=
    if i < 16 then (Nat.land st.b st.c + Nat.land (bnot32 st.b) st.d, i)
    else if i < 32 then (Nat.land st.d st.b + Nat.land (bnot32 st.d) st.c, (5 * i + 1) % 16)
    else if i < 48 then (Nat.xor (Nat.xor st.b st.c) st.d, (3 * i + 5) % 16)
    else (Nat.xor st.c (Nat.lor st.b (bnot32 st.d)), (7 * i) % 16)
  let f := (fg.1 + st.a + md5K.getD i 0 + M.getD fg.2 0) % mask32
  ⟨st.d, (st.b + rotl32 f (md5S.getD i 0)) % mask32, st.b, st.c⟩

/-- Compress one 64-byte block into the chaining state. -/
def md5Compress (st : MD5State) (block : List Nat) : MD5State :=
  let M := leWords block
  let r := (List.range 64).foldl (md5Round M) st
  ⟨(st.a + r.a) % mask32, (st.b + r.b) % mask32, (st.c + r.c) % mask32, (st.d + r.d) % mask32⟩

/-- Consume the (padded) message byte-by-byte, compressing each completed
64-byte block.  Padding guarantees the pending block empties out exactly. -/
def md5Blocks (st : MD5State) (pending : List Nat) : List Nat → MD5State
  | [] => st
  | b :: rest =>
      let p := pending ++ [b]
      if p.length = 64 then md5Blocks (md5Compress st p) [] rest
      else md5Blocks st p rest

/-- MD5 padding: `0x80`, zeros to 56 mod 64, then the bit length as a
little-endian 64-bit integer. -/
def md5Pad (msg : List Nat) : List Nat :=
  let len := msg.length
  let k := (64 + 56 - ((len + 1) % 64)) % 64
  let bitLen := 8 * len
  msg ++ [128] ++ List.replicate k 0 ++
    [bitLen % 256, bitLen / 256 % 256, bitLen / 65536 % 256, bitLen / 16777216 % 256,
     bitLen / 4294967296 % 256, bitLen / 1099511627776 % 256,
     bitLen / 281474976710656 % 256, bitLen / 72057594037927936 % 256]

/-- The fixed MD5 initial chaining state. -/
def md5Init : MD5State := ⟨0x67452301, 0xefcdab89, 0x98badcfe, 0x10325476⟩

/-- UTF-8 encoding of one Unicode scalar value (Python `str.encode()`). -/
def utf8Enc (c : Nat) : List Nat :=
  if c < 128 then [c]
  else if c < 2048 then [192 + c / 64, 128 + c % 64]
  else if c < 65536 then [224 + c / 4096, 128 + c / 64 % 64, 128 + c % 64]
  else [240 + c / 262144, 128 + c / 4096 % 64, 128 + c / 64 % 64, 128 + c % 64]

/-- UTF-8 bytes of a string (Python `s.encode()`). -/
def strBytes (s : String) : List Nat := s.data.flatMap (fun ch => utf8Enc ch.toNat)

/-- Lower-case hex digit for `n < 16`. -/
def hexDigitChar (n : Nat) : Char :=
  if n < 10 then Char.ofNat (48 + n) else Char.ofNat (87 + n)

/-- Two-character lower-case hex rendering of a byte. -/
def byteHex (b : Nat) : String := String.mk [hexDigitChar (b / 16 % 16), hexDigitChar (b % 16)]

/-- Eight-character little-endian hex rendering of a 32-bit word. -/
def wordLEHex (w : Nat) : String :=
  byteHex (w % 256) ++ byteHex (w / 256 % 256) ++ byteHex (w / 65536 % 256) ++
    byteHex (w / 16777216 % 256)

/-- `hashlib.md5(s.encode()).hexdigest()`: the 32-character lower-case hex
MD5 digest of the UTF-8 bytes of `s`. -/
def md5Hex (s : String) : String :=
  let st := md5Blocks md5Init [] (md5Pad (strBytes s))
  wordLEHex st.a ++ wordLEHex st.b ++ wordLEHex st.c ++ wordLEHex st.d

/-- `project_key` (line 18): first 16 hex characters of the MD5 digest of
the working-directory string. -/
def project_key (cwd : String) : String := (md5Hex cwd).take 16

/- ---------------------------------------------------------------------
Conversation reconstruction (`extract_text`, `build_conversation`).
--------------------------------------------------------------------- -/

/-- `extract_text` (lines 38-49).  A plain string passes through; a list
contributes its string items and the `text` fields of its dict items tagged
`type == "text"`, newline-joined; anything else yields `""`.  `.error ()`
models the uncaught `TypeError` raised by `"\n".join` when a contributed
`text` field is not a string. -/
def extract_text (content : JVal) : Except Unit String :=
  match content with
  | .str s => .ok s
  | .arr blocks =>
      let parts : List JVal := blocks.filterMap (fun block =>
        match block with
        | .obj _ =>
            if (block.get "type").eqStr "text" then some (block.getD "text" (.str ""))
            else none
        | .str s => some (.str s)
        | _ => none)
      if parts.all (fun p => match p with | .str _ => true | _ => false) then
        .ok (String.intercalate "\n"
          (parts.filterMap (fun p => match p with | .str s => some s | _ => none)))
      else .error ()
  | _ => .ok ""

/-- The content value resolved for one transcript record (lines 58-59):
`msg = entry.get("message") or entry`, then `msg.get("content", "")` when
`msg` is a dict, else `""`. -/
def entryContent (entry : JVal) : JVal :=
  let msg := pyOr (entry.get "message") entry
  match msg with
  | .obj _ => msg.getD "content" (.str "")
  | _ => .str ""

/-- The marker appended by the truncation at lines 73-74 (the code appends
`"\n[...truncated...]"` after the first 3000 characters). -/
def truncMarker : String := "\n[...truncated...]"

/-- Per-message truncation (lines 73-74): texts longer than 3000 characters
are cut to their first 3000 characters plus the marker. -/
def truncate (text : String) : String :=
  if 3000 < text.length then String.mk (text.data.take 3000) ++ truncMarker else text

/-- The role value resolved for one record (line 57):
`entry.get("type") or entry.get("role") or ""`. -/
def entryRole (entry : JVal) : JVal :=
  pyOr (entry.get "type") (pyOr (entry.get "role") (.str ""))

/-- Processing of one transcript record by the loop body of
`build_conversation` (lines 55-75): `.ok none` means the record is skipped,
`.ok (some l)` that the formatted line `l` is appended, `.error ()` an
uncaught exception (`AttributeError` when the record is not a dict, or a
`TypeError` out of `extract_text`). -/
def entryLine (entry : JVal) : Except Unit (Option String) :=
  match entry with
  | .obj _ =>
    let role := entryRole entry
    match extract_text (entryContent entry) with
    | .error u => .error u
    | .ok raw =>
      let text := pyStrip raw
      if text = "" then .ok none
      else if role.eqStr "user" || role.eqStr "human" then
        .ok (some ("[USER]\n" ++ truncate text))
      else if role.eqStr "assistant" then
        .ok (some ("[ASSISTANT]\n" ++ truncate text))
      else .ok none
  | _ => .error ()

/-- The list of formatted conversation lines accumulated by
`build_conversation`'s loop, with exception propagation. -/
def buildLines : List JVal → Except Unit (List String)
  | [] => .ok []
  | e :: rest =>
    match entryLine e with
    | .error u => .error u
    | .ok none => buildLines rest
    | .ok (some l) =>
      match buildLines rest with
      | .error u => .error u
      | .ok ls => .ok (l :: ls)

/-- `build_conversation` (lines 52-78): join the last 80 formatted lines
with the horizontal-rule separator (`lines[-80:]` is `drop (length - 80)`). -/
def build_conversation (entries : List JVal) : Except Unit String :=
  match buildLines entries with
  | .error u => .error u
  | .ok lines => .ok (String.intercalate "\n\n---\n\n" (lines.drop (lines.length - 80)))

/- ---------------------------------------------------------------------
Transcript loading, summary generation, and `main`.
--------------------------------------------------------------------- -/

/-- One line of the transcript file, after `line.strip()` and the attempted
`json.loads` (lines 26-32): blank, undecodable, or a decoded record. -/
inductive TranscriptLine where
  | blank
  | invalid
  | record (v : JVal)

/-- `read_transcript` (lines 22-35), as a function of the transcript file's
contents: `none` models an unreadable/missing file (caught, yielding `[]`);
blank and undecodable lines are skipped. -/
def read_transcript : Option (List TranscriptLine) → List JVal
  | none => []
  | some ls => ls.filterMap (fun l =>
      match l with
      | .record v => some v
      | _ => none)

/-- The outcome of the `subprocess.run` call on the external `claude` CLI
(lines 119-132): it ran with an exit code and captured output, it hit the
120-second timeout, or the executable was not found on the path. -/
inductive ToolOutcome where
  | ran (returncode : Int) (stdout : String) (stderr : String)
  | timeout
  | notFound

/-- `generate_summary` (lines 81-133), as a function of the subprocess
outcome (the prompt text does not influence the hook's own behaviour):
the trimmed stdout on exit code 0 with non-empty trimmed stdout, otherwise
`none` after a logged diagnostic (timeout and missing executable are caught). -/
def generate_summary (outcome : ToolOutcome) : Option String :=
  match outcome with
  | .ran rc out _ => if rc = 0 ∧ pyStrip out ≠ "" then some (pyStrip out) else none
  | .timeout => none
  | .notFound => none

/-- One file write performed by `main`: target path and full content. -/
structure FileWrite where
  path : String
  content : String
deriving DecidableEq

/-- Result of a run: normal termination via `sys.exit(code)` after the
given writes, or an uncaught exception (`crash`), which makes the Python
interpreter terminate with a non-zero status after the given writes. -/
inductive MainResult where
  | exit (code : Nat) (writes : List FileWrite)
  | crash (writes : List FileWrite)
deriving DecidableEq

/-- The external state of one invocation: stdin (`none` models a payload
that failed to decode, handled at lines 137-140), `os.getcwd()`,
`Path.home()`, the formatted `datetime.now()` timestamp, the transcript
file's contents, the subprocess outcome, whether `<cwd>/.claude` is a
directory, and whether each of the two `write_text` calls fails with an
`OSError`. -/
structure World where
  stdinPayload : Option JVal
  osCwd : String
  homeDir : String
  nowStr : String
  transcript : Option (List TranscriptLine)
  tool : ToolOutcome
  projectDotClaudeIsDir : Bool
  homeWriteFails : Bool
  localWriteFails : Bool

/-- The header block generated at lines 176-182. -/
def mkHeader (nowStr cwdStr sessionStr triggerStr : String) : String :=
  "# Design Decisions & Anti-Regression Guide\n**Generated:** " ++ nowStr ++
    "\n**Project:** " ++ cwdStr ++ "\n**Session:** " ++ sessionStr ++
    "\n**Compaction trigger:** " ++ triggerStr ++ "\n\n"

/-- The persistence stage of `main` (lines 170-194).  `project_key` calls
`cwd.encode()`, which raises `AttributeError` when `cwd` is not a string;
an `OSError` from either `write_text` propagates uncaught. -/
def persistStage (w : World) (cwd trigger session_id : JVal) (summary : String) : MainResult :=
  match cwd with
  | .str cwdStr =>
    let key := project_key cwdStr
    let outPath := w.homeDir ++ "/.claude/design-decisions/" ++ key ++ ".md"
    let header := mkHeader w.nowStr cwdStr (pyStr session_id) (pyStr trigger)
    if w.homeWriteFails then .crash []
    else
      let firstWrite : FileWrite := ⟨outPath, header ++ summary⟩
      if w.projectDotClaudeIsDir then
        if w.localWriteFails then .crash [firstWrite]
        else .exit 0 [firstWrite, ⟨cwdStr ++ "/.claude/design-decisions.md", header ++ summary⟩]
      else .exit 0 [firstWrite]
  | _ => .crash []

/-- The stages of `main` from the transcript read onward (lines 153-194).
Early exits (empty transcript, empty conversation, failed or empty
summary) are `sys.exit(0)` with no writes. -/
def mainEntries (w : World) (cwd trigger session_id : JVal) : MainResult :=
  let entries := read_transcript w.transcript
  if entries.isEmpty then .exit 0 []
  else
    match build_conversation entries with
    | .error _ => .crash []
    | .ok conversation =>
      if pyStrip conversation = "" then .exit 0 []
      else
        match generate_summary w.tool with
        | none => .exit 0 []
        | some summary =>
          if summary = "" then .exit 0 []
          else persistStage w cwd trigger session_id summary

/-- The body of `main` (lines 142-194) once the payload is known to be a
dict.  A falsy transcript path is an early `sys.exit(0)` (lines 149-151).
Otherwise `read_transcript` calls `open(transcript_path)`: on a list or
dict path `open()` raises a `TypeError`, which the function's
`except (FileNotFoundError, IOError)` does not catch, so it propagates
uncaught (`.crash`).  A numeric or boolean path is passed to `open()` as a
file descriptor; its caught `OSError` or successfully read content is
represented by `World.transcript` (`none` models the caught error), like a
string path's file. -/
def mainPayload (w : World) (payload : JVal) : MainResult :=
  let cwd := pyOr (payload.get "cwd") (.str w.osCwd)
  let transcript_path := payload.getD "transcript_path" (.str "")
  let trigger := payload.getD "trigger" (.str "auto")
  let session_id := payload.getD "session_id" (.str "unknown")
  if transcript_path.truthy = false then .exit 0 []
  else
    match transcript_path with
    | .arr _ => .crash []
    | .obj _ => .crash []
    | _ => mainEntries w cwd trigger session_id

namespace Hook

/-- `main` (lines 136-194).  A payload that failed to decode is replaced by
the empty dict; `payload.get("cwd")` on a non-dict payload raises an
uncaught `AttributeError`.  (Namespaced because a bare `main` is reserved
for executable entry points in Lean.) -/
def main (w : World) : MainResult :=
  match w.stdinPayload.getD (.obj []) with
  | .obj kvs => mainPayload w (.obj kvs)
  | _ => .crash []

end Hook

/- ---------------------------------------------------------------------
Validation of the MD5 embedding against the RFC 1321 test vectors.
--------------------------------------------------------------------- -/

set_option maxRecDepth 8192 in
/-- RFC 1321 test vector: MD5 of the empty string. -/
theorem md5Hex_empty : md5Hex "" = "d41d8cd98f00b204e9800998ecf8427e" := rfl

set_option maxRecDepth 8192 in
/-- RFC 1321 test vector: MD5 of `"abc"`. -/
theorem md5Hex_abc : md5Hex "abc" = "900150983cd24fb0d6963f7d28e17f72" := rfl

/- ---------------------------------------------------------------------
Supporting lemmas.
--------------------------------------------------------------------- -/

/-- `(String.mk l).length = l.length`. -/
theorem strLength_mk (l : List Char) : (String.mk l).length = l.length := rfl

/-- `s.length = s.data.length`. -/
theorem strLength_data (s : String) : s.length = s.data.length := rfl

/-- If every entry is skipped, the accumulated line list is empty. -/
theorem buildLines_nil_of_all_none :
    ∀ entries : List JVal, (∀ e ∈ entries, entryLine e = .ok none) →
      buildLines entries = .ok [] := by
  intro entries h
  induction entries with
  | nil => rfl
  | cons e rest ih =>
    have he := h e (List.mem_cons_self e rest)
    have hr := ih (fun x hx => h x (List.mem_cons_of_mem e hx))
    simp [buildLines, he, hr]

/-- Every accumulated line is the line of some entry. -/
theorem buildLines_mem :
    ∀ entries lines, buildLines entries = .ok lines →
      ∀ l ∈ lines, ∃ e ∈ entries, entryLine e = .ok (some l) := by
  intro entries
  induction entries with
  | nil =>
    intro lines h l hl
    simp only [buildLines] at h
    cases h; simp at hl
  | cons e rest ih =>
    intro lines h l hl
    simp only [buildLines] at h
    cases hel : entryLine e with
    | error u => rw [hel] at h; cases h
    | ok o =>
      rw [hel] at h
      cases o with
      | none =>
        obtain ⟨e2, he2, hline⟩ := ih lines h l hl
        exact ⟨e2, List.mem_cons_of_mem e he2, hline⟩
      | some l2 =>
        cases hrest : buildLines rest with
        | error u => rw [hrest] at h; cases h
        | ok ls =>
          rw [hrest] at h
          cases h
          rcases List.mem_cons.mp hl with h1 | h2
          · exact ⟨e, List.mem_cons_self e rest, by rw [hel, h1]⟩
          · obtain ⟨e2, he2, hline⟩ := ih ls hrest l h2
            exact ⟨e2, List.mem_cons_of_mem e he2, hline⟩

/-- A kept line is a role label (USER or ASSISTANT) followed by the
truncated, stripped text of the record. -/
theorem entryLine_some_shape (e : JVal) (l : String)
    (h : entryLine e = .ok (some l)) :
    ∃ lab text, (lab = "[USER]\n" ∨ lab = "[ASSISTANT]\n") ∧ text ≠ "" ∧
      l = lab ++ truncate text := by
  cases e with
  | obj kvs =>
    simp only [entryLine] at h
    cases hex : extract_text (entryContent (.obj kvs)) with
    | error u => simp only [hex] at h; exact absurd h (by simp)
    | ok raw =>
      simp only [hex] at h
      by_cases h1 : pyStrip raw = ""
      · rw [if_pos h1] at h
        exact absurd h (by simp)
      · rw [if_neg h1] at h
        by_cases h2 : ((entryRole (.obj kvs)).eqStr "user" ||
            (entryRole (.obj kvs)).eqStr "human") = true
        · rw [if_pos h2] at h
          refine ⟨"[USER]\n", pyStrip raw, Or.inl rfl, h1, ?_⟩
          simpa using h.symm
        · rw [if_neg h2] at h
          by_cases h3 : (entryRole (.obj kvs)).eqStr "assistant" = true
          · rw [if_pos h3] at h
            refine ⟨"[ASSISTANT]\n", pyStrip raw, Or.inr rfl, h1, ?_⟩
            simpa using h.symm
          · rw [if_neg h3] at h
            exact absurd h (by simp)
  | null => cases h
  | bool b => cases h
  | num n => cases h
  | str s => cases h
  | arr xs => cases h

/-- The truncated text never exceeds 3000 characters plus the marker. -/
theorem truncate_length_le (text : String) :
    (truncate text).length ≤ 3000 + truncMarker.length := by
  unfold truncate
  by_cases h : 3000 < text.length
  · rw [if_pos h, String.length_append, strLength_mk, List.length_take]
    omega
  · rw [if_neg h]
    omega

/- ---------------------------------------------------------------------
C3: truncation.
--------------------------------------------------------------------- -/

/-- C3: a resolved text longer than 3000 characters is replaced by exactly
its first 3000 characters followed by the fixed truncation marker, and
every per-message body in the built conversation is a role label followed
by a truncated text whose length never exceeds 3000 characters plus the
marker. -/
theorem c3_truncation_bound :
    (∀ text : String, 3000 < text.length →
      truncate text = String.mk (text.data.take 3000) ++ truncMarker ∧
      (truncate text).length = 3000 + truncMarker.length) ∧
    (∀ entries lines, buildLines entries = .ok lines →
      ∀ l ∈ lines, ∃ lab text, (lab = "[USER]\n" ∨ lab = "[ASSISTANT]\n") ∧
        l = lab ++ truncate text ∧
        (truncate text).length ≤ 3000 + truncMarker.length) := by
  constructor
  · intro text h
    constructor
    · simp only [truncate]
      rw [if_pos h]
    · simp only [truncate]
      rw [if_pos h, String.length_append, strLength_mk, List.length_take]
      have hd : text.length = text.data.length := strLength_data text
      omega
  · intro entries lines h l hl
    obtain ⟨e, he, hline⟩ := buildLines_mem entries lines h l hl
    obtain ⟨lab, text, hlab, _, hshape⟩ := entryLine_some_shape e l hline
    exact ⟨lab, text, hlab, hshape, truncate_length_le text⟩

/-- A 3001-character string, witness input for the truncation bound. -/
def longA : String := String.mk (List.replicate 3001 'a')

/-- A one-record entry list, witness input for the conversation bound. -/
def c3Entries : List JVal := [.obj [("type", .str "user"), ("content", .str "hello")]]

set_option maxRecDepth 16384 in
/-- C3 witness: the truncation theorem applied to a concrete 3001-character
text and a concrete one-record transcript. -/
theorem c3_truncation_bound_witness :
    3000 < longA.length ∧
    (truncate longA = String.mk (longA.data.take 3000) ++ truncMarker ∧
      (truncate longA).length = 3000 + truncMarker.length) ∧
    buildLines c3Entries = .ok ["[USER]\nhello"] ∧
    (∀ l ∈ ["[USER]\nhello"], ∃ lab text,
      (lab = "[USER]\n" ∨ lab = "[ASSISTANT]\n") ∧
      l = lab ++ truncate text ∧
      (truncate text).length ≤ 3000 + truncMarker.length) :=
  ⟨by show 3000 < (String.mk (List.replicate 3001 'a')).length
      rw [strLength_mk, List.length_replicate]
      omega,
   c3_truncation_bound.1 longA
    (by show 3000 < (String.mk (List.replicate 3001 'a')).length
        rw [strLength_mk, List.length_replicate]
        omega),
   rfl,
   c3_truncation_bound.2 c3Entries ["[USER]\nhello"] rfl⟩

/- ---------------------------------------------------------------------
C4: windowing to the last 80 entries.
--------------------------------------------------------------------- -/

/-- C4: the built conversation joins exactly the trailing window
`lines[-80:]` of the valid role-labeled entries, a suffix of the full list
(hence in original order): all of them when there are at most 80, and
exactly the last 80 otherwise. -/
theorem c4_windowing (entries : List JVal) (lines : List String)
    (h : buildLines entries = .ok lines) :
    build_conversation entries =
      .ok (String.intercalate "\n\n---\n\n" (lines.drop (lines.length - 80))) ∧
    lines.drop (lines.length - 80) <:+ lines ∧
    (lines.length ≤ 80 → lines.drop (lines.length - 80) = lines) ∧
    (80 < lines.length → (lines.drop (lines.length - 80)).length = 80) := by
  refine ⟨?_, List.drop_suffix _ _, ?_, ?_⟩
  · simp [build_conversation, h]
  · intro hle
    have h0 : lines.length - 80 = 0 := by omega
    rw [h0, List.drop_zero]
  · intro hgt
    rw [List.length_drop]
    omega

/-- A valid user record, witness input for the windowing theorem. -/
def c4Entry : JVal := .obj [("type", .str "user"), ("content", .str "m")]

/-- 81 valid records: one more than the retained window. -/
def c4Entries : List JVal := List.replicate 81 c4Entry

/-- The 81 lines built from `c4Entries`. -/
def c4Lines : List String := List.replicate 81 "[USER]\nm"

set_option maxRecDepth 16384 in
/-- C4 witness: the windowing theorem applied to a concrete list of 81
valid records (the window drops exactly the first one). -/
theorem c4_windowing_witness :
    buildLines c4Entries = .ok c4Lines ∧
    (build_conversation c4Entries =
        .ok (String.intercalate "\n\n---\n\n" (c4Lines.drop (c4Lines.length - 80))) ∧
      c4Lines.drop (c4Lines.length - 80) <:+ c4Lines ∧
      (c4Lines.length ≤ 80 → c4Lines.drop (c4Lines.length - 80) = c4Lines) ∧
      (80 < c4Lines.length → (c4Lines.drop (c4Lines.length - 80)).length = 80)) :=
  ⟨rfl, c4_windowing c4Entries c4Lines rfl⟩

/- ---------------------------------------------------------------------
C5: the storage key.
--------------------------------------------------------------------- -/

/-- A byte renders as two hex characters. -/
theorem byteHex_length (b : Nat) : (byteHex b).length = 2 := rfl

/-- A 32-bit word renders as eight hex characters. -/
theorem wordLEHex_length (w : Nat) : (wordLEHex w).length = 8 := by
  simp [wordLEHex, String.length_append, byteHex_length]

/-- The MD5 hex digest always has 32 characters. -/
theorem md5Hex_length (s : String) : (md5Hex s).length = 32 := by
  simp [md5Hex, String.length_append, wordLEHex_length]

set_option maxRecDepth 16384 in
/-- C5: the storage key is the first 16 hexadecimal characters of the MD5
digest of the working-directory string (a 32-character digest), it always
has 16 characters, equal strings always map to the same key, and a sample
pair of distinct strings maps to distinct keys. -/
theorem c5_project_key (cwd cwd2 : String) (heq : cwd = cwd2) :
    project_key cwd = (md5Hex cwd).take 16 ∧
    (md5Hex cwd).length = 32 ∧
    (project_key cwd).length = 16 ∧
    project_key cwd = project_key cwd2 ∧
    project_key "/proj" ≠ project_key "/tmp/other" := by
  refine ⟨rfl, md5Hex_length cwd, ?_, by rw [heq], by decide⟩
  simp only [project_key]
  rw [strLength_data, String.data_take, List.length_take]
  have h32 : (md5Hex cwd).length = 32 := md5Hex_length cwd
  rw [strLength_data] at h32
  omega

set_option maxRecDepth 16384 in
/-- C5 witness: the storage-key theorem applied at the concrete
working-directory string used in the end-to-end scenario. -/
theorem c5_project_key_witness :
    ("/proj" : String) = "/proj" ∧
    (project_key "/proj" = (md5Hex "/proj").take 16 ∧
      (md5Hex "/proj").length = 32 ∧
      (project_key "/proj").length = 16 ∧
      project_key "/proj" = project_key "/proj" ∧
      project_key "/proj" ≠ project_key "/tmp/other") :=
  ⟨rfl, c5_project_key "/proj" "/proj" rfl⟩

/- ---------------------------------------------------------------------
Reduction helpers for `main`.
--------------------------------------------------------------------- -/

/-- Under a dict payload, `main` runs the payload stage. -/
theorem main_eq_mainPayload (w : World) (kvs : List (String × JVal))
    (hp : w.stdinPayload = some (.obj kvs)) :
    Hook.main w = mainPayload w (.obj kvs) := by
  simp [Hook.main, hp]

/-- Under a failed stdin decode, `main` runs on the empty dict. -/
theorem main_eq_mainPayload_none (w : World)
    (hp : w.stdinPayload = none) :
    Hook.main w = mainPayload w (.obj []) := by
  simp [Hook.main, hp]

/-- When the resolved transcript path is falsy, the run is an early
successful exit with no writes (lines 149-151). -/
theorem mainPayload_path_falsy (w : World) (payload : JVal)
    (h : (payload.getD "transcript_path" (.str "")).truthy = false) :
    mainPayload w payload = .exit 0 [] := by
  simp [mainPayload, h]

/-- Whether `open()` accepts the resolved transcript path without raising
`TypeError`: false exactly for a non-empty list or dict value (an empty
one is falsy and exits before `open()` is called). -/
def openArgOk (v : JVal) : Bool :=
  match v with
  | .arr xs => xs.isEmpty
  | .obj kvs => kvs.isEmpty
  | _ => true

/-- With a truthy transcript path that is not a list or dict, the payload
stage proceeds to the transcript stage. -/
theorem mainPayload_reduce (w : World) (payload : JVal)
    (htp : (payload.getD "transcript_path" (.str "")).truthy = true)
    (hok : openArgOk (payload.getD "transcript_path" (.str "")) = true) :
    mainPayload w payload =
      mainEntries w (pyOr (payload.get "cwd") (.str w.osCwd))
        (payload.getD "trigger" (.str "auto"))
        (payload.getD "session_id" (.str "unknown")) := by
  cases hv : payload.getD "transcript_path" (.str "") with
  | null => rw [hv] at htp; simp [JVal.truthy] at htp
  | bool b => rw [hv] at htp; simp [mainPayload, hv, htp]
  | num n => rw [hv] at htp; simp [mainPayload, hv, htp]
  | str s => rw [hv] at htp; simp [mainPayload, hv, htp]
  | arr xs =>
    rw [hv] at htp hok
    simp [openArgOk] at hok
    simp [JVal.truthy, hok] at htp
  | obj kvs2 =>
    rw [hv] at htp hok
    simp [openArgOk] at hok
    simp [JVal.truthy, hok] at htp

/-- A list-valued transcript path crashes the run before any transcript is
consulted: `open(["x"])` raises a `TypeError` that
`except (FileNotFoundError, IOError)` does not catch. -/
theorem mainPayload_list_path_crash (w : World) :
    mainPayload w (.obj [("transcript_path", .arr [.str "x"])]) = .crash [] := rfl

/-- A value passing `eqStr s` is the string `s`. -/
theorem eqStr_eq {v : JVal} {s : String} (h : v.eqStr s = true) : v = .str s := by
  cases v <;> simp [JVal.eqStr] at h ⊢
  exact h

/- ---------------------------------------------------------------------
C6: role resolution and record filtering.
--------------------------------------------------------------------- -/

/-- C6: the role is the record's `type` field, falling back to `role` (and
then to `""`); a record with non-empty resolved text is kept with label
USER for role `user`/`human` and ASSISTANT for role `assistant`; a record
with empty resolved text, or any other role, is skipped. -/
theorem c6_role_mapping (kvs : List (String × JVal)) (raw : String)
    (hex : extract_text (entryContent (.obj kvs)) = .ok raw) :
    (entryRole (.obj kvs) =
      (if ((JVal.obj kvs).get "type").truthy then (JVal.obj kvs).get "type"
       else if ((JVal.obj kvs).get "role").truthy then (JVal.obj kvs).get "role"
       else .str "")) ∧
    (pyStrip raw = "" → entryLine (.obj kvs) = .ok none) ∧
    (pyStrip raw ≠ "" →
      ((entryRole (.obj kvs)).eqStr "user" = true ∨
       (entryRole (.obj kvs)).eqStr "human" = true) →
      entryLine (.obj kvs) = .ok (some ("[USER]\n" ++ truncate (pyStrip raw)))) ∧
    (pyStrip raw ≠ "" → (entryRole (.obj kvs)).eqStr "assistant" = true →
      entryLine (.obj kvs) = .ok (some ("[ASSISTANT]\n" ++ truncate (pyStrip raw)))) ∧
    (pyStrip raw ≠ "" →
      (entryRole (.obj kvs)).eqStr "user" = false →
      (entryRole (.obj kvs)).eqStr "human" = false →
      (entryRole (.obj kvs)).eqStr "assistant" = false →
      entryLine (.obj kvs) = .ok none) := by
  refine ⟨by simp [entryRole, pyOr], ?_, ?_, ?_, ?_⟩
  · intro h1
    simp only [entryLine, hex]
    rw [if_pos h1]
  · intro h1 h2
    simp only [entryLine, hex]
    rw [if_neg h1, if_pos (by rcases h2 with h | h <;> simp [h])]
  · intro h1 h3
    have hrole : entryRole (.obj kvs) = .str "assistant" := eqStr_eq h3
    simp only [entryLine, hex]
    rw [if_neg h1, if_neg (by simp [hrole, JVal.eqStr]), if_pos (by simp [hrole, JVal.eqStr])]
  · intro h1 hu hh ha
    simp only [entryLine, hex]
    rw [if_neg h1, if_neg (by simp [hu, hh]), if_neg (by simp [ha])]

/-- Witness record for C6: no `type` key, so the role falls back to the
`role` field, here `human`, mapping to USER. -/
def c6Kvs : List (String × JVal) := [("role", .str "human"), ("content", .str "hi")]

/-- C6 witness: the role-mapping theorem applied to a concrete flat record
with role `human` and content `"hi"`. -/
theorem c6_role_mapping_witness :
    extract_text (entryContent (.obj c6Kvs)) = .ok "hi" ∧
    ((entryRole (.obj c6Kvs) =
      (if ((JVal.obj c6Kvs).get "type").truthy then (JVal.obj c6Kvs).get "type"
       else if ((JVal.obj c6Kvs).get "role").truthy then (JVal.obj c6Kvs).get "role"
       else .str "")) ∧
    (pyStrip "hi" = "" → entryLine (.obj c6Kvs) = .ok none) ∧
    (pyStrip "hi" ≠ "" →
      ((entryRole (.obj c6Kvs)).eqStr "user" = true ∨
       (entryRole (.obj c6Kvs)).eqStr "human" = true) →
      entryLine (.obj c6Kvs) = .ok (some ("[USER]\n" ++ truncate (pyStrip "hi")))) ∧
    (pyStrip "hi" ≠ "" → (entryRole (.obj c6Kvs)).eqStr "assistant" = true →
      entryLine (.obj c6Kvs) = .ok (some ("[ASSISTANT]\n" ++ truncate (pyStrip "hi")))) ∧
    (pyStrip "hi" ≠ "" →
      (entryRole (.obj c6Kvs)).eqStr "user" = false →
      (entryRole (.obj c6Kvs)).eqStr "human" = false →
      (entryRole (.obj c6Kvs)).eqStr "assistant" = false →
      entryLine (.obj c6Kvs) = .ok none)) :=
  ⟨rfl, c6_role_mapping c6Kvs "hi" rfl⟩

/- ---------------------------------------------------------------------
C7: whitespace-only records.
--------------------------------------------------------------------- -/

/-- `pyStrip` of the empty string. -/
theorem pyStrip_empty : pyStrip "" = "" := rfl

/-- C7: a record whose resolved text is only whitespace strips to empty
and is excluded from the conversation; and a run in which every parsed
record is excluded exits 0 without writing any file (on a run that reads a
transcript the path handed to `open()` is well-typed, which the
`openArgOk` hypothesis records). -/
theorem c7_whitespace_skip :
    (∀ s : String, s.data.all isPySpace = true → pyStrip s = "") ∧
    (∀ kvs raw, extract_text (entryContent (.obj kvs)) = .ok raw →
      pyStrip raw = "" → entryLine (.obj kvs) = .ok none) ∧
    (∀ (w : World) kvs, w.stdinPayload = some (.obj kvs) →
      openArgOk (JVal.getD (.obj kvs) "transcript_path" (.str "")) = true →
      (∀ e ∈ read_transcript w.transcript, entryLine e = .ok none) →
      Hook.main w = .exit 0 []) := by
  refine ⟨?_, ?_, ?_⟩
  · intro s h
    unfold pyStrip
    have h1 : s.data.dropWhile isPySpace = [] := by
      rw [List.dropWhile_eq_nil_iff]
      intro x hx
      exact List.all_eq_true.mp h x hx
    rw [h1]
    rfl
  · intro kvs raw hex h1
    simp only [entryLine, hex]
    rw [if_pos h1]
  · intro w kvs hp hok hall
    rw [main_eq_mainPayload w kvs hp]
    cases htp : (JVal.getD (.obj kvs) "transcript_path" (.str "")).truthy
    · exact mainPayload_path_falsy w _ htp
    · rw [mainPayload_reduce w _ htp hok]
      have hbl : buildLines (read_transcript w.transcript) = .ok [] :=
        buildLines_nil_of_all_none _ hall
      have hconv : build_conversation (read_transcript w.transcript) = .ok "" := by
        simp only [build_conversation, hbl]
        rfl
      cases hemp : (read_transcript w.transcript).isEmpty
      · simp [mainEntries, hemp, hconv, pyStrip_empty]
      · simp [mainEntries, hemp]

/-- Witness record for C7: content is whitespace only. -/
def c7Kvs : List (String × JVal) := [("type", .str "user"), ("content", .str " \n ")]

/-- Witness world for C7: the transcript's only record strips to empty. -/
def c7World : World :=
  { stdinPayload := some (.obj [("transcript_path", .str "/t")])
    osCwd := "/w"
    homeDir := "/h"
    nowStr := "now"
    transcript := some [.record (.obj c7Kvs)]
    tool := .ran 0 "SUMMARY" ""
    projectDotClaudeIsDir := false
    homeWriteFails := false
    localWriteFails := false }

/-- C7 witness: the whitespace-exclusion theorem applied to a concrete
whitespace-only string, record and world. -/
theorem c7_whitespace_skip_witness :
    (" \n " : String).data.all isPySpace = true ∧
    pyStrip " \n " = "" ∧
    extract_text (entryContent (.obj c7Kvs)) = .ok " \n " ∧
    entryLine (.obj c7Kvs) = .ok none ∧
    c7World.stdinPayload = some (.obj [("transcript_path", .str "/t")]) ∧
    openArgOk (JVal.getD (.obj [("transcript_path", .str "/t")])
      "transcript_path" (.str "")) = true ∧
    Hook.main c7World = .exit 0 [] :=
  ⟨by decide,
   c7_whitespace_skip.1 " \n " (by decide),
   rfl,
   c7_whitespace_skip.2.1 c7Kvs " \n " rfl (by decide),
   rfl,
   by decide,
   c7_whitespace_skip.2.2 c7World _ rfl (by decide) (by
    intro e he
    have h : e = JVal.obj c7Kvs := by simpa [read_transcript, c7World] using he
    rw [h]
    rfl)⟩

/- ---------------------------------------------------------------------
C8: the summary generator and its non-fatal failure.
--------------------------------------------------------------------- -/

/-- C8: the generator returns the trimmed stdout exactly when the external
command exits 0 with non-empty trimmed stdout; a non-zero exit code, the
120-second timeout, and a missing executable all yield `none`; and a run
whose generator yields `none` (with the earlier stages not raising: the
path handed to `open()` well-typed per `openArgOk`, the conversation
built without exception) exits 0 without writing any file. -/
theorem c8_generate_summary :
    (∀ (rc : Int) (out err : String),
      generate_summary (.ran rc out err) =
        if rc = 0 ∧ pyStrip out ≠ "" then some (pyStrip out) else none) ∧
    generate_summary .timeout = none ∧
    generate_summary .notFound = none ∧
    (∀ (w : World) kvs conv, w.stdinPayload = some (.obj kvs) →
      openArgOk (JVal.getD (.obj kvs) "transcript_path" (.str "")) = true →
      build_conversation (read_transcript w.transcript) = .ok conv →
      generate_summary w.tool = none →
      Hook.main w = .exit 0 []) := by
  refine ⟨fun rc out err => rfl, rfl, rfl, ?_⟩
  intro w kvs conv hp hok hconv hnone
  rw [main_eq_mainPayload w kvs hp]
  cases htp : (JVal.getD (.obj kvs) "transcript_path" (.str "")).truthy
  · exact mainPayload_path_falsy w _ htp
  · rw [mainPayload_reduce w _ htp hok]
    cases hemp : (read_transcript w.transcript).isEmpty
    · by_cases hce : pyStrip conv = ""
      · simp [mainEntries, hemp, hconv, hce]
      · simp [mainEntries, hemp, hconv, hce, hnone]
    · simp [mainEntries, hemp]

/-- Witness world for C8: the external tool runs but exits with code 1. -/
def c8World : World :=
  { stdinPayload := some (.obj [("transcript_path", .str "/t")])
    osCwd := "/w"
    homeDir := "/h"
    nowStr := "now"
    transcript := some [.record (.obj [("type", .str "user"), ("content", .str "hi")])]
    tool := .ran 1 "SUMMARY" "boom"
    projectDotClaudeIsDir := false
    homeWriteFails := false
    localWriteFails := false }

/-- C8 witness: the generator theorem applied at a concrete failing
subprocess outcome (exit code 1) and the corresponding world, which exits
0 with no writes. -/
theorem c8_generate_summary_witness :
    generate_summary (.ran 1 "SUMMARY" "boom") =
      (if (1 : Int) = 0 ∧ pyStrip "SUMMARY" ≠ "" then some (pyStrip "SUMMARY") else none) ∧
    generate_summary .timeout = none ∧
    generate_summary .notFound = none ∧
    c8World.stdinPayload = some (.obj [("transcript_path", .str "/t")]) ∧
    openArgOk (JVal.getD (.obj [("transcript_path", .str "/t")])
      "transcript_path" (.str "")) = true ∧
    build_conversation (read_transcript c8World.transcript) = .ok "[USER]\nhi" ∧
    generate_summary c8World.tool = none ∧
    Hook.main c8World = .exit 0 [] :=
  ⟨c8_generate_summary.1 1 "SUMMARY" "boom", c8_generate_summary.2.1,
   c8_generate_summary.2.2.1, rfl, by decide, rfl, rfl,
   c8_generate_summary.2.2.2 c8World [("transcript_path", .str "/t")] "[USER]\nhi"
     rfl (by decide) rfl rfl⟩

/- ---------------------------------------------------------------------
C9: missing transcript path.
--------------------------------------------------------------------- -/

/-- C9: when the payload has no `transcript_path` key (including when the
payload failed to decode and defaults to the empty dict), the run exits 0
and performs no writes. -/
theorem c9_missing_transcript_path :
    (∀ w : World, w.stdinPayload = none → Hook.main w = .exit 0 []) ∧
    (∀ (w : World) kvs, w.stdinPayload = some (.obj kvs) →
      lookupKey kvs "transcript_path" = none →
      Hook.main w = .exit 0 []) := by
  constructor
  · intro w hp
    rw [main_eq_mainPayload_none w hp]
    exact mainPayload_path_falsy w _ (by decide)
  · intro w kvs hp hmiss
    rw [main_eq_mainPayload w kvs hp]
    refine mainPayload_path_falsy w _ ?_
    simp [JVal.getD, hmiss, JVal.truthy]

/-- Witness world for C9 with an undecodable stdin payload. -/
def c9WorldA : World :=
  { stdinPayload := none
    osCwd := "/w"
    homeDir := "/h"
    nowStr := "now"
    transcript := some [.record (.obj [("type", .str "user"), ("content", .str "hi")])]
    tool := .ran 0 "SUMMARY" ""
    projectDotClaudeIsDir := false
    homeWriteFails := false
    localWriteFails := false }

/-- Witness payload for C9: a dict payload without `transcript_path`. -/
def c9Kvs : List (String × JVal) := [("cwd", .str "/p")]

/-- Witness world for C9 with a dict payload missing `transcript_path`. -/
def c9WorldB : World :=
  { c9WorldA with stdinPayload := some (.obj c9Kvs) }

/-- C9 witness: the missing-path theorem applied to the two concrete
worlds. -/
theorem c9_missing_transcript_path_witness :
    c9WorldA.stdinPayload = none ∧
    Hook.main c9WorldA = .exit 0 [] ∧
    c9WorldB.stdinPayload = some (.obj c9Kvs) ∧
    lookupKey c9Kvs "transcript_path" = none ∧
    Hook.main c9WorldB = .exit 0 [] :=
  ⟨rfl, c9_missing_transcript_path.1 c9WorldA rfl, rfl, rfl,
   c9_missing_transcript_path.2 c9WorldB c9Kvs rfl rfl⟩

/- ---------------------------------------------------------------------
C10: transcript path present but empty.
--------------------------------------------------------------------- -/

/-- C10: a payload whose `transcript_path` is the empty string behaves
exactly like a missing path: the run exits 0 with no writes, whatever the
transcript file contains (so the transcript is never consulted). -/
theorem c10_empty_transcript_path (w : World) (kvs : List (String × JVal))
    (hp : w.stdinPayload = some (.obj kvs))
    (hempty : lookupKey kvs "transcript_path" = some (.str "")) :
    Hook.main w = .exit 0 [] ∧
    (∀ t, Hook.main { w with transcript := t } = .exit 0 []) := by
  have key : ∀ w2 : World, w2.stdinPayload = some (.obj kvs) →
      Hook.main w2 = .exit 0 [] := by
    intro w2 hp2
    rw [main_eq_mainPayload w2 kvs hp2]
    refine mainPayload_path_falsy w2 _ ?_
    simp [JVal.getD, hempty, JVal.truthy]
  exact ⟨key w hp, fun t => key _ (by simp [hp])⟩

/-- Witness payload for C10: `transcript_path` present but empty. -/
def c10Kvs : List (String × JVal) := [("transcript_path", .str ""), ("cwd", .str "/p")]

/-- Witness world for C10. -/
def c10World : World :=
  { stdinPayload := some (.obj c10Kvs)
    osCwd := "/w"
    homeDir := "/h"
    nowStr := "now"
    transcript := some [.record (.obj [("type", .str "user"), ("content", .str "hi")])]
    tool := .ran 0 "SUMMARY" ""
    projectDotClaudeIsDir := false
    homeWriteFails := false
    localWriteFails := false }

/-- C10 witness: the empty-path theorem applied to the concrete world. -/
theorem c10_empty_transcript_path_witness :
    c10World.stdinPayload = some (.obj c10Kvs) ∧
    lookupKey c10Kvs "transcript_path" = some (.str "") ∧
    (Hook.main c10World = .exit 0 [] ∧
      (∀ t, Hook.main { c10World with transcript := t } = .exit 0 [])) :=
  ⟨rfl, rfl, c10_empty_transcript_path c10World c10Kvs rfl rfl⟩

/- ---------------------------------------------------------------------
C1: exit status.
--------------------------------------------------------------------- -/

/-- The end-to-end world of C2: payload with `transcript_path` and
`cwd = "/proj"`, a transcript with one user and one assistant record with
non-empty text, and the summarizer stubbed to return `"SUMMARY"` with
exit code 0. -/
def c2World : World :=
  { stdinPayload := some (.obj [("transcript_path", .str "/tmp/t.jsonl"), ("cwd", .str "/proj")])
    osCwd := "/w"
    homeDir := "/home/u"
    nowStr := "2025-01-01 00:00"
    transcript := some
      [.record (.obj [("type", .str "user"),
        ("message", .obj [("content", .str "hello")])]),
       .record (.obj [("type", .str "assistant"),
        ("message", .obj [("content", .str "hi there")])])]
    tool := .ran 0 "SUMMARY" ""
    projectDotClaudeIsDir := false
    homeWriteFails := false
    localWriteFails := false }

set_option maxRecDepth 16384 in
/-- C2: in the end-to-end scenario the run exits 0 having written exactly
the header block followed by `"SUMMARY"` to the per-user path
`<home>/.claude/design-decisions/<project key>.md`; and when `.claude`
exists under the working directory, the identical header+body is also
written to `<cwd>/.claude/design-decisions.md`. -/
theorem c2_end_to_end :
    Hook.main c2World = .exit 0
      [⟨"/home/u" ++ "/.claude/design-decisions/" ++ project_key "/proj" ++ ".md",
        mkHeader "2025-01-01 00:00" "/proj" "unknown" "auto" ++ "SUMMARY"⟩] ∧
    Hook.main { c2World with projectDotClaudeIsDir := true } = .exit 0
      [⟨"/home/u" ++ "/.claude/design-decisions/" ++ project_key "/proj" ++ ".md",
        mkHeader "2025-01-01 00:00" "/proj" "unknown" "auto" ++ "SUMMARY"⟩,
       ⟨"/proj" ++ "/.claude/design-decisions.md",
        mkHeader "2025-01-01 00:00" "/proj" "unknown" "auto" ++ "SUMMARY"⟩] :=
  ⟨rfl, rfl⟩
